import Mathlib

/-!
# Shallow embedding of the Whisper protocol contract

This file embeds `src/contract/src/lib.rs` — a NEAR smart contract acting as a
key directory and encrypted-message relay — and proves the testable properties
of its specification against that embedding.

Modelling conventions:
* `AccountId` is a `String`; `near_sdk::store::LookupMap` is an association
  list with `alistGet` / `alistInsert` for `get` / `insert`.
* Token amounts (`NearToken`) are `Nat`s counted in yoctoNEAR
  (1 NEAR = 10^24 yocto, 1 milliNEAR = 10^21 yocto).
* The host context (`env::predecessor_account_id`, `env::attached_deposit`,
  `env::block_timestamp`) is an explicit `Env` record passed to every call.
* A Rust panic (`assert!`, `env::panic_str`, arithmetic overflow under the
  NEAR template's `overflow-checks = true`) aborts the transaction and the
  host rolls every mutation back, so each method is a total function
  returning `Except String (state × emitted events)`: the `.error` case
  carries the panic message and, by construction, leaves no state change and
  emits nothing — exactly the ledger's atomic apply-or-reject semantics.
* `u32` / `u64` increments are checked: `x + 1` fails with the overflow panic
  message when the result would not fit, mirroring `overflow-checks = true`
  (also the behaviour of the repository's own `cargo test` debug builds).
* `emit_event` wraps structured data in the fixed NEP-297 envelope and logs
  it; only the event kind and `data` payload vary, so events are modelled as
  an inductive `Event` with one constructor per kind, in payload field order.
-/

/-- `LookupMap::get`, on the association-list model of the map. -/
def alistGet {V : Type} : List (String × V) → String → Option V
  | [], _ => none
  | (k, v) :: rest, key => if k = key then some v else alistGet rest key

/-- `LookupMap::insert`: replace the binding of `key` if present, else add it. -/
def alistInsert {V : Type} : List (String × V) → String → V → List (String × V)
  | [], key, v => [(key, v)]
  | (k, w) :: rest, key, v =>
    if k = key then (key, v) :: rest else (k, w) :: alistInsert rest key v

/-- `NearToken::from_millinear`, in yoctoNEAR. -/
def from_millinear (n : Nat) : Nat := n * 10 ^ 21

/-- One more than the largest `u32`. -/
def U32_MOD : Nat := 2 ^ 32

/-- One more than the largest `u64`. -/
def U64_MOD : Nat := 2 ^ 64

/-- Panic message of a checked-arithmetic overflow in Rust. -/
def overflowMsg : String := "attempt to add with overflow"

/-! ## Base64 (the `base64` crate's `general_purpose::STANDARD` engine) -/

/-- Value of one character of the standard base64 alphabet. -/
def b64Val (c : Char) : Option Nat :=
  if 'A' ≤ c ∧ c ≤ 'Z' then some (c.toNat - 65)
  else if 'a' ≤ c ∧ c ≤ 'z' then some (c.toNat - 71)
  else if '0' ≤ c ∧ c ≤ '9' then some (c.toNat + 4)
  else if c = '+' then some 62
  else if c = '/' then some 63
  else none

/-- Decode a base64 character stream four characters at a time.  The STANDARD
engine requires canonical padding (`=` only in the final quartet, input length
a multiple of 4) and rejects non-zero trailing bits. -/
def b64DecodeChunks : List Char → Option (List Nat)
  | [] => some []
  | a :: b :: c :: d :: rest =>
    match b64Val a, b64Val b with
    | some va, some vb =>
      if c = '=' then
        if d = '=' ∧ rest = [] ∧ vb % 16 = 0 then
          some [va * 4 + vb / 16]
        else none
      else
        match b64Val c with
        | some vc =>
          if d = '=' then
            if rest = [] ∧ vc % 4 = 0 then
              some [va * 4 + vb / 16, vb % 16 * 16 + vc / 4]
            else none
          else
            match b64Val d with
            | some vd =>
              match b64DecodeChunks rest with
              | some tail =>
                some ((va * 4 + vb / 16) :: (vb % 16 * 16 + vc / 4) ::
                      ((vc % 4 * 64 + vd) :: tail))
              | none => none
            | none => none
        | none => none
    | _, _ => none
  | _ => none

/-- `BASE64.decode` on a string, returning the decoded bytes (as `Nat`s). -/
def base64Decode (s : String) : Option (List Nat) := b64DecodeChunks s.data

/-! ## Data model -/

/-- A registered messaging profile (`MessagingProfile` in the source). -/
structure MessagingProfile where
  x25519_pubkey : String
  key_version : Nat
  registered_at : Nat
  display_name : Option String
deriving DecidableEq, Repr

/-- Group chat metadata (`GroupChat` in the source). -/
structure GroupChat where
  group_id : String
  creator : String
  created_at : Nat
  name : Option String
deriving DecidableEq, Repr

/-- The `payment` object embedded in a paid message event:
`{token: "NEAR", amount: <yocto amount>}` (the amount is serialized as a
decimal string on the wire). -/
structure PaymentInfo where
  token : String
  amount : Nat
deriving DecidableEq, Repr

/-- The one promise shape the contract builds: `Promise::new(to).transfer(amount)`. -/
structure PromiseTransfer where
  receiver : String
  amount : Nat
deriving DecidableEq, Repr

/-- The NEP-297 events emitted via `emit_event`, one constructor per event
kind, arguments in the order of the `serde_json::json!` payload.  The Rust
`from` field is called `msg_from` (`from` is a Lean keyword). -/
inductive Event where
  | key_registered (account_id : String) (x25519_pubkey : String)
      (key_version : Nat) (display_name : Option String)
  | message (id : Nat) (msg_from : String) (to_acct : String)
      (encrypted_body : String) (nonce : String) (recipient_key_version : Nat)
      (reply_to : Option String) (timestamp : Nat) (payment : Option PaymentInfo)
  | group_created (group_id : String) (creator : String) (name : Option String)
      (member_keys : String) (timestamp : Nat)
  | group_message (id : Nat) (group_id : String) (msg_from : String)
      (encrypted_body : String) (nonce : String) (group_key_version : Nat)
      (timestamp : Nat)
deriving DecidableEq, Repr

/-- The contract state (`WhisperContract` in the source). -/
structure WhisperContract where
  profiles : List (String × MessagingProfile)
  groups : List (String × GroupChat)
  profile_count : Nat
  message_count : Nat
  owner : String
deriving DecidableEq, Repr

/-- The host-provided call context (`near_sdk::env`). -/
structure Env where
  predecessor_account_id : String
  attached_deposit : Nat
  block_timestamp : Nat
deriving DecidableEq, Repr

/-! ## Operations -/

/-- The `new` constructor body: empty maps, zero counters, caller as owner. -/
def WhisperContract.new (env : Env) : WhisperContract :=
  { profiles := []
    groups := []
    profile_count := 0
    message_count := 0
    owner := env.predecessor_account_id }

/-- `register_key`: validate the base64 pubkey (must decode to 32 bytes),
compute the next key version, require the 0.01 NEAR storage deposit for a
first registration, then store the new profile wholesale and emit one
`key_registered` event. -/
def register_key (env : Env) (st : WhisperContract) (x25519_pubkey : String)
    (display_name : Option String) :
    Except String (WhisperContract × List Event) :=
  let account_id := env.predecessor_account_id
  match base64Decode x25519_pubkey with
  | none => .error "Invalid base64 pubkey"
  | some decoded =>
    if decoded.length = 32 then
      match alistGet st.profiles account_id with
      | some p =>
        if p.key_version + 1 < U32_MOD then
          let key_version := p.key_version + 1
          let profile : MessagingProfile :=
            { x25519_pubkey := x25519_pubkey
              key_version := key_version
              registered_at := env.block_timestamp
              display_name := display_name }
          .ok ({ st with profiles := alistInsert st.profiles account_id profile },
               [Event.key_registered account_id x25519_pubkey key_version display_name])
        else .error overflowMsg
      | none =>
        if from_millinear 10 ≤ env.attached_deposit then
          if st.profile_count + 1 < U64_MOD then
            let profile : MessagingProfile :=
              { x25519_pubkey := x25519_pubkey
                key_version := 1
                registered_at := env.block_timestamp
                display_name := display_name }
            .ok ({ st with
                    profiles := alistInsert st.profiles account_id profile
                    profile_count := st.profile_count + 1 },
                 [Event.key_registered account_id x25519_pubkey 1 display_name])
          else .error overflowMsg
        else .error "Attach at least 0.01 NEAR for storage deposit"
    else .error "X25519 pubkey must be 32 bytes"

/-- `send_message`: require a registered recipient, bump the global message
counter, emit one `message` event (no `payment` field). -/
def send_message (env : Env) (st : WhisperContract) (to_acct : String)
    (encrypted_body : String) (nonce : String) (recipient_key_version : Nat)
    (reply_to : Option String) :
    Except String (WhisperContract × List Event) :=
  let msg_from := env.predecessor_account_id
  if (alistGet st.profiles to_acct).isSome then
    if st.message_count + 1 < U64_MOD then
      let message_id := st.message_count + 1
      .ok ({ st with message_count := message_id },
           [Event.message message_id msg_from to_acct encrypted_body nonce
              recipient_key_version reply_to env.block_timestamp none])
    else .error overflowMsg
  else .error "Recipient has no registered messaging key"

/-- `send_message_with_payment`: require a positive attached deposit and a
registered recipient, bump the counter, emit one `message` event carrying a
`payment` object, and return the transfer promise `Promise::new(to).transfer(amount)`. -/
def send_message_with_payment (env : Env) (st : WhisperContract) (to_acct : String)
    (encrypted_body : String) (nonce : String) (recipient_key_version : Nat)
    (reply_to : Option String) :
    Except String (WhisperContract × List Event × PromiseTransfer) :=
  let msg_from := env.predecessor_account_id
  let amount := env.attached_deposit
  if 0 < amount then
    if (alistGet st.profiles to_acct).isSome then
      if st.message_count + 1 < U64_MOD then
        let message_id := st.message_count + 1
        .ok ({ st with message_count := message_id },
             [Event.message message_id msg_from to_acct encrypted_body nonce
                recipient_key_version reply_to env.block_timestamp
                (some { token := "NEAR", amount := amount })],
             { receiver := to_acct, amount := amount })
      else .error overflowMsg
    else .error "Recipient has no registered messaging key"
  else .error "Must attach NEAR tokens for payment message"

/-- `create_group`: require the 0.01 NEAR storage deposit, then a fresh
`group_id`, store the group, and emit one `group_created` event (the
`member_keys` blob is passed through uninterpreted). -/
def create_group (env : Env) (st : WhisperContract) (group_id : String)
    (name : Option String) (member_keys : String) :
    Except String (WhisperContract × List Event) :=
  let creator := env.predecessor_account_id
  if from_millinear 10 ≤ env.attached_deposit then
    if (alistGet st.groups group_id).isNone then
      let group : GroupChat :=
        { group_id := group_id
          creator := creator
          created_at := env.block_timestamp
          name := name }
      .ok ({ st with groups := alistInsert st.groups group_id group },
           [Event.group_created group_id creator name member_keys
              env.block_timestamp])
    else .error "Group ID already exists"
  else .error "Attach at least 0.01 NEAR for storage"

/-- `send_group_message`: require an existing group, bump the same global
message counter, emit one `group_message` event. -/
def send_group_message (env : Env) (st : WhisperContract) (group_id : String)
    (encrypted_body : String) (nonce : String) (group_key_version : Nat) :
    Except String (WhisperContract × List Event) :=
  let msg_from := env.predecessor_account_id
  if (alistGet st.groups group_id).isSome then
    if st.message_count + 1 < U64_MOD then
      let message_id := st.message_count + 1
      .ok ({ st with message_count := message_id },
           [Event.group_message message_id group_id msg_from encrypted_body
              nonce group_key_version env.block_timestamp])
    else .error overflowMsg
  else .error "Group does not exist"

/-- View `get_profile`. -/
def get_profile (st : WhisperContract) (account_id : String) :
    Option MessagingProfile :=
  alistGet st.profiles account_id

/-- View `has_profile`. -/
def has_profile (st : WhisperContract) (account_id : String) : Bool :=
  (alistGet st.profiles account_id).isSome

/-- View `get_group`. -/
def get_group (st : WhisperContract) (group_id : String) : Option GroupChat :=
  alistGet st.groups group_id

/-! ## Call sequences -/

/-- One external mutating call, with its host context. -/
inductive Call where
  | register (env : Env) (x25519_pubkey : String) (display_name : Option String)
  | send (env : Env) (to_acct : String) (encrypted_body : String) (nonce : String)
      (recipient_key_version : Nat) (reply_to : Option String)
  | sendWithPayment (env : Env) (to_acct : String) (encrypted_body : String)
      (nonce : String) (recipient_key_version : Nat) (reply_to : Option String)
  | createGroup (env : Env) (group_id : String) (name : Option String)
      (member_keys : String)
  | sendGroup (env : Env) (group_id : String) (encrypted_body : String)
      (nonce : String) (group_key_version : Nat)
deriving DecidableEq, Repr

/-- Dispatch one call against the contract state (the transfer promise of a
paid message goes to the host and is dropped here). -/
def step (st : WhisperContract) : Call → Except String (WhisperContract × List Event)
  | .register env pk dn => register_key env st pk dn
  | .send env t body nonce rkv rt => send_message env st t body nonce rkv rt
  | .sendWithPayment env t body nonce rkv rt =>
    (send_message_with_payment env st t body nonce rkv rt).map
      fun out => (out.1, out.2.1)
  | .createGroup env gid name keys => create_group env st gid name keys
  | .sendGroup env gid body nonce gkv => send_group_message env st gid body nonce gkv

/-- Run a sequence of calls.  A failed call is rolled back whole by the host:
it leaves the state untouched and its log lines are discarded. -/
def run (st : WhisperContract) : List Call → WhisperContract × List Event
  | [] => (st, [])
  | c :: cs =>
    match step st c with
    | .error _ => run st cs
    | .ok (st', evs) =>
      let rest := run st' cs
      (rest.1, evs ++ rest.2)

/-- The message id carried by a `message` or `group_message` event. -/
def Event.msgId : Event → Option Nat
  | .message id _ _ _ _ _ _ _ _ => some id
  | .group_message id _ _ _ _ _ _ => some id
  | _ => none

/-- The message ids of an event trace, in emission order. -/
def messageIds (evs : List Event) : List Nat := evs.filterMap Event.msgId

/-- Modelled from the spec: the deployment-level initialization guard.  The
`#[init]` attribute's generated wrapper (code of this repository's build, not
present under `src/`) panics when contract state already exists, so a second
constructor call fails with the already-initialized error and the first one
builds the state via `WhisperContract.new`. -/
def init_call (deployed : Option WhisperContract) (env : Env) :
    Except String WhisperContract :=
  match deployed with
  | some _ => .error "The contract has already been initialized"
  | none => .ok (WhisperContract.new env)

/-- Deployment-level state after an attempted constructor call: a failed call
leaves the deployed state as it was. -/
def deploy_step (deployed : Option WhisperContract) (env : Env) :
    Option WhisperContract :=
  match init_call deployed env with
  | .ok st => some st
  | .error _ => deployed

/-! ## Helper lemmas -/

theorem alistGet_insert_self {V : Type} (m : List (String × V)) (k : String) (v : V) :
    alistGet (alistInsert m k v) k = some v := by
  induction m with
  | nil => simp [alistInsert, alistGet]
  | cons kw rest ih =>
    obtain ⟨k1, w⟩ := kw
    by_cases h : k1 = k <;> simp [alistInsert, alistGet, h, ih]

theorem alistGet_insert_ne {V : Type} (m : List (String × V)) (k k' : String) (v : V)
    (h : ¬ k = k') : alistGet (alistInsert m k v) k' = alistGet m k' := by
  induction m with
  | nil => simp [alistInsert, alistGet, h]
  | cons kw rest ih =>
    obtain ⟨k1, w⟩ := kw
    by_cases h1 : k1 = k <;> simp [alistInsert, alistGet, h1, h, ih]


/-- Inversion of a successful `register_key`: the caller's profile is replaced
wholesale with this call's values, the key version is 1 on a first
registration and the predecessor's version plus 1 on a rotation,
`profile_count` grows only on a first registration, and exactly one
`key_registered` event is emitted. -/
theorem register_key_ok_inv (env : Env) (st : WhisperContract) (pk : String)
    (dn : Option String) (st' : WhisperContract) (evs : List Event)
    (h : register_key env st pk dn = .ok (st', evs)) :
    ∃ kv,
      st' = { st with
                profiles := alistInsert st.profiles env.predecessor_account_id
                  ({ x25519_pubkey := pk, key_version := kv,
                     registered_at := env.block_timestamp, display_name := dn })
                profile_count :=
                  if alistGet st.profiles env.predecessor_account_id = none
                  then st.profile_count + 1 else st.profile_count } ∧
      evs = [Event.key_registered env.predecessor_account_id pk kv dn] ∧
      (match alistGet st.profiles env.predecessor_account_id with
        | none => kv = 1
        | some p => kv = p.key_version + 1) := by
  unfold register_key at h
  rcases hdec : base64Decode pk with _ | decoded
  · simp only [hdec] at h; exact absurd h (by simp)
  simp only [hdec] at h
  by_cases hlen : decoded.length = 32
  case neg => rw [if_neg hlen] at h; exact absurd h (by simp)
  rw [if_pos hlen] at h
  rcases hprof : alistGet st.profiles env.predecessor_account_id with _ | p <;>
    simp only [hprof] at h ⊢
  · by_cases hdep : from_millinear 10 ≤ env.attached_deposit
    case neg => rw [if_neg hdep] at h; exact absurd h (by simp)
    rw [if_pos hdep] at h
    by_cases hpc : st.profile_count + 1 < U64_MOD
    case neg => rw [if_neg hpc] at h; exact absurd h (by simp)
    rw [if_pos hpc] at h
    simp only [Except.ok.injEq, Prod.mk.injEq] at h
    exact ⟨1, h.1.symm, h.2.symm, rfl⟩
  · by_cases hkv : p.key_version + 1 < U32_MOD
    case neg => rw [if_neg hkv] at h; exact absurd h (by simp)
    rw [if_pos hkv] at h
    simp only [Except.ok.injEq, Prod.mk.injEq] at h
    exact ⟨p.key_version + 1, h.1.symm, h.2.symm, rfl⟩

/-- Inversion of a successful `send_message`. -/
theorem send_message_ok_inv (env : Env) (st : WhisperContract) (t body nonce : String)
    (rkv : Nat) (rt : Option String) (st' : WhisperContract) (evs : List Event)
    (h : send_message env st t body nonce rkv rt = .ok (st', evs)) :
    (alistGet st.profiles t).isSome = true ∧ st.message_count + 1 < U64_MOD ∧
    st' = { st with message_count := st.message_count + 1 } ∧
    evs = [Event.message (st.message_count + 1) env.predecessor_account_id t
             body nonce rkv rt env.block_timestamp none] := by
  unfold send_message at h
  by_cases h1 : (alistGet st.profiles t).isSome = true
  case neg => rw [if_neg h1] at h; exact absurd h (by simp)
  rw [if_pos h1] at h
  by_cases h2 : st.message_count + 1 < U64_MOD
  case neg => rw [if_neg h2] at h; exact absurd h (by simp)
  rw [if_pos h2] at h
  simp only [Except.ok.injEq, Prod.mk.injEq] at h
  exact ⟨h1, h2, h.1.symm, h.2.symm⟩

/-- Inversion of a successful `send_message_with_payment`: the attached value
is positive, the recipient is registered, exactly one `message` event with a
`payment` object is emitted, and the full attached amount is transferred to
the recipient. -/
theorem send_message_with_payment_ok_inv (env : Env) (st : WhisperContract)
    (t body nonce : String) (rkv : Nat) (rt : Option String)
    (st' : WhisperContract) (evs : List Event) (pr : PromiseTransfer)
    (h : send_message_with_payment env st t body nonce rkv rt = .ok (st', evs, pr)) :
    0 < env.attached_deposit ∧ (alistGet st.profiles t).isSome = true ∧
    st.message_count + 1 < U64_MOD ∧
    st' = { st with message_count := st.message_count + 1 } ∧
    evs = [Event.message (st.message_count + 1) env.predecessor_account_id t
             body nonce rkv rt env.block_timestamp
             (some { token := "NEAR", amount := env.attached_deposit })] ∧
    pr = { receiver := t, amount := env.attached_deposit } := by
  unfold send_message_with_payment at h
  by_cases h0 : 0 < env.attached_deposit
  case neg => rw [if_neg h0] at h; exact absurd h (by simp)
  rw [if_pos h0] at h
  by_cases h1 : (alistGet st.profiles t).isSome = true
  case neg => rw [if_neg h1] at h; exact absurd h (by simp)
  rw [if_pos h1] at h
  by_cases h2 : st.message_count + 1 < U64_MOD
  case neg => rw [if_neg h2] at h; exact absurd h (by simp)
  rw [if_pos h2] at h
  simp only [Except.ok.injEq, Prod.mk.injEq] at h
  exact ⟨h0, h1, h2, h.1.symm, h.2.1.symm, h.2.2.symm⟩

/-- Inversion of a successful `create_group`. -/
theorem create_group_ok_inv (env : Env) (st : WhisperContract) (gid : String)
    (name : Option String) (keys : String) (st' : WhisperContract) (evs : List Event)
    (h : create_group env st gid name keys = .ok (st', evs)) :
    from_millinear 10 ≤ env.attached_deposit ∧ alistGet st.groups gid = none ∧
    st' = { st with
              groups := alistInsert st.groups gid
                ({ group_id := gid, creator := env.predecessor_account_id,
                   created_at := env.block_timestamp, name := name }) } ∧
    evs = [Event.group_created gid env.predecessor_account_id name keys
             env.block_timestamp] := by
  unfold create_group at h
  by_cases h0 : from_millinear 10 ≤ env.attached_deposit
  case neg => rw [if_neg h0] at h; exact absurd h (by simp)
  rw [if_pos h0] at h
  by_cases h1 : (alistGet st.groups gid).isNone = true
  case neg => rw [if_neg h1] at h; exact absurd h (by simp)
  rw [if_pos h1] at h
  simp only [Except.ok.injEq, Prod.mk.injEq] at h
  exact ⟨h0, Option.isNone_iff_eq_none.mp h1, h.1.symm, h.2.symm⟩

/-- Inversion of a successful `send_group_message`. -/
theorem send_group_message_ok_inv (env : Env) (st : WhisperContract)
    (gid body nonce : String) (gkv : Nat) (st' : WhisperContract) (evs : List Event)
    (h : send_group_message env st gid body nonce gkv = .ok (st', evs)) :
    (alistGet st.groups gid).isSome = true ∧ st.message_count + 1 < U64_MOD ∧
    st' = { st with message_count := st.message_count + 1 } ∧
    evs = [Event.group_message (st.message_count + 1) gid
             env.predecessor_account_id body nonce gkv env.block_timestamp] := by
  unfold send_group_message at h
  by_cases h1 : (alistGet st.groups gid).isSome = true
  case neg => rw [if_neg h1] at h; exact absurd h (by simp)
  rw [if_pos h1] at h
  by_cases h2 : st.message_count + 1 < U64_MOD
  case neg => rw [if_neg h2] at h; exact absurd h (by simp)
  rw [if_pos h2] at h
  simp only [Except.ok.injEq, Prod.mk.injEq] at h
  exact ⟨h1, h2, h.1.symm, h.2.symm⟩

/-- Shape of any one successful call: it either emits no message id and keeps
`message_count`, or emits exactly the one id `message_count + 1` and advances
the counter by exactly 1. -/
theorem step_ok_shape (st : WhisperContract) (c : Call) (st' : WhisperContract)
    (evs : List Event) (h : step st c = .ok (st', evs)) :
    (messageIds evs = [] ∧ st'.message_count = st.message_count) ∨
    (messageIds evs = [st.message_count + 1] ∧
      st'.message_count = st.message_count + 1) := by
  cases c with
  | register env pk dn =>
    left
    simp only [step] at h
    obtain ⟨kv, hst, hevs, hkv⟩ := register_key_ok_inv env st pk dn st' evs h
    subst hst hevs
    simp [messageIds, Event.msgId]
  | send env t body nonce rkv rt =>
    right
    simp only [step] at h
    obtain ⟨h1, h2, hst, hevs⟩ := send_message_ok_inv env st t body nonce rkv rt st' evs h
    subst hst hevs
    simp [messageIds, Event.msgId]
  | sendWithPayment env t body nonce rkv rt =>
    right
    simp only [step] at h
    rcases hp : send_message_with_payment env st t body nonce rkv rt with e | out
    · rw [hp] at h; exact absurd h (by simp [Except.map])
    · rw [hp] at h
      obtain ⟨st1, evs1, pr1⟩ := out
      simp only [Except.map, Except.ok.injEq, Prod.mk.injEq] at h
      obtain ⟨rfl, rfl⟩ := h
      obtain ⟨h0, h1, h2, hst, hevs, hpr⟩ :=
        send_message_with_payment_ok_inv env st t body nonce rkv rt st1 evs1 pr1 hp
      subst hst hevs
      simp [messageIds, Event.msgId]
  | createGroup env gid name keys =>
    left
    simp only [step] at h
    obtain ⟨h0, h1, hst, hevs⟩ := create_group_ok_inv env st gid name keys st' evs h
    subst hst hevs
    simp [messageIds, Event.msgId]
  | sendGroup env gid body nonce gkv =>
    right
    simp only [step] at h
    obtain ⟨h1, h2, hst, hevs⟩ := send_group_message_ok_inv env st gid body nonce gkv st' evs h
    subst hst hevs
    simp [messageIds, Event.msgId]

/-- Running any call sequence: the trace of message ids is exactly the
consecutive block starting right after the initial counter value, and the
counter ends at its start plus the number of emitted ids. -/
theorem run_ids (cs : List Call) : ∀ st : WhisperContract,
    (run st cs).1.message_count =
      st.message_count + (messageIds (run st cs).2).length ∧
    messageIds (run st cs).2 =
      List.range' (st.message_count + 1) (messageIds (run st cs).2).length := by
  induction cs with
  | nil => intro st; simp [run, messageIds]
  | cons c cs ih =>
    intro st
    rcases hstep : step st c with e | out
    · simpa [run, hstep] using ih st
    · obtain ⟨st1, evs⟩ := out
      have hsh := step_ok_shape st c st1 evs hstep
      obtain ⟨hcnt, hids⟩ := ih st1
      simp only [run, hstep, messageIds, List.filterMap_append] at *
      rcases hsh with ⟨hevs, hc⟩ | ⟨hevs, hc⟩
      · simp only [hevs, hc, List.nil_append] at *
        exact ⟨hcnt, hids⟩
      · simp only [hevs, hc] at *
        constructor
        · simp only [List.singleton_append, List.length_cons]
          omega
        · simp only [List.singleton_append, List.length_cons]
          rw [List.range'_succ]
          exact congrArg _ hids

/-- Decidable equality on `Except`, so that witnesses can be checked by
`decide`. -/
instance {e a : Type} [DecidableEq e] [DecidableEq a] : DecidableEq (Except e a)
  | .error x, .error y =>
    if h : x = y then .isTrue (by rw [h]) else .isFalse (by simp [h])
  | .error _, .ok _ => .isFalse (by simp)
  | .ok _, .error _ => .isFalse (by simp)
  | .ok x, .ok y =>
    if h : x = y then .isTrue (by rw [h]) else .isFalse (by simp [h])

/-! ## Concrete inputs used by the witnesses -/

/-- A valid base64 encoding of 32 zero bytes (decodes to exactly 32 bytes). -/
def pkW : String := "AAAAAAAAAAAAAAAAAAAAAAAAAAAAAAAAAAAAAAAAAAA="

/-- Alice's call context with the 0.01 NEAR storage deposit attached. -/
def envAlice : Env :=
  { predecessor_account_id := "alice", attached_deposit := from_millinear 10,
    block_timestamp := 7 }

/-- Alice's profile after her first registration of `pkW`. -/
def profA1 : MessagingProfile :=
  { x25519_pubkey := pkW, key_version := 1, registered_at := 7,
    display_name := none }

/-- State after Alice's first registration against a fresh contract. -/
def stA1 : WhisperContract :=
  { profiles := [("alice", profA1)], groups := [], profile_count := 1,
    message_count := 0, owner := "alice" }

/-- Alice's profile after re-registering `pkW` with a display name. -/
def profA2 : MessagingProfile :=
  { x25519_pubkey := pkW, key_version := 2, registered_at := 7,
    display_name := some "Alice" }

/-- State after Alice's second registration. -/
def stA2 : WhisperContract :=
  { profiles := [("alice", profA2)], groups := [], profile_count := 1,
    message_count := 0, owner := "alice" }

/-- A mixed call sequence: a registration, a direct message, a failing group
message (no such group), another direct message. -/
def callsW : List Call :=
  [Call.register envAlice pkW none,
   Call.send envAlice "alice" "body" "nonce" 1 none,
   Call.sendGroup envAlice "g" "body" "nonce" 1,
   Call.send envAlice "alice" "body2" "nonce2" 1 none]

/-! ## Claims -/

/-- C1: over any call sequence against a fresh contract, the assigned message
ids — across direct, paid and group messages alike — are exactly 1, 2, 3, …:
strictly increasing by exactly 1 with no gaps, starting at 1 for the first
successful message; and a failed call leaves the state (in particular the
message counter) untouched and emits nothing. -/
theorem C1_message_ids_consecutive (env0 : Env) (calls : List Call) :
    messageIds (run (WhisperContract.new env0) calls).2 =
      List.range' 1 ((run (WhisperContract.new env0) calls).1.message_count) ∧
    ∀ (st : WhisperContract) (c : Call) (e : String),
      step st c = .error e → run st [c] = (st, []) := by
  constructor
  · obtain ⟨hcnt, hids⟩ := run_ids calls (WhisperContract.new env0)
    have h0 : (WhisperContract.new env0).message_count = 0 := rfl
    rw [h0] at hcnt hids
    rw [hcnt]
    simpa using hids
  · intro st c e h
    simp [run, h]

/-- Witness for C1: on the concrete sequence `callsW` the two successful
sends get ids `[1, 2]`, and the concrete failing group send (no group `g`
exists) leaves a fresh contract untouched. -/
theorem C1_witness :
    messageIds (run (WhisperContract.new envAlice) callsW).2 = List.range' 1 2 ∧
    run (WhisperContract.new envAlice)
        [Call.sendGroup envAlice "g" "body" "nonce" 1] =
      (WhisperContract.new envAlice, []) := by
  constructor
  · have h := (C1_message_ids_consecutive envAlice callsW).1
    have hc : (run (WhisperContract.new envAlice) callsW).1.message_count = 2 := by
      decide
    rw [hc] at h
    exact h
  · exact (C1_message_ids_consecutive envAlice []).2 (WhisperContract.new envAlice)
      (Call.sendGroup envAlice "g" "body" "nonce" 1) "Group does not exist"
      (by decide)

/-- C2: a successful `register_key` stores key_version 1 and bumps
`profile_count` by exactly 1 when the caller had no profile (first
registration), and stores exactly the previous version plus 1 with
`profile_count` unchanged when the caller already had one. -/
theorem C2_register_key_versioning (env : Env) (st st' : WhisperContract)
    (pk : String) (dn : Option String) (evs : List Event)
    (h : register_key env st pk dn = .ok (st', evs)) :
    (alistGet st.profiles env.predecessor_account_id = none →
      (alistGet st'.profiles env.predecessor_account_id).map
          MessagingProfile.key_version = some 1 ∧
      st'.profile_count = st.profile_count + 1) ∧
    ∀ p, alistGet st.profiles env.predecessor_account_id = some p →
      (alistGet st'.profiles env.predecessor_account_id).map
          MessagingProfile.key_version = some (p.key_version + 1) ∧
      st'.profile_count = st.profile_count := by
  obtain ⟨kv, hst, hevs, hkv⟩ := register_key_ok_inv env st pk dn st' evs h
  subst hst
  constructor
  · intro hnone
    simp only [hnone] at hkv
    subst hkv
    exact ⟨by simp [alistGet_insert_self], by simp [hnone]⟩
  · intro p hp
    simp only [hp] at hkv
    subst hkv
    exact ⟨by simp [alistGet_insert_self], by simp [hp]⟩

/-- Witness for C2: Alice's first registration on a fresh contract yields
version 1 and profile_count 1; her second yields version 2 with
profile_count unchanged. -/
theorem C2_witness :
    ((alistGet stA1.profiles "alice").map MessagingProfile.key_version = some 1 ∧
      stA1.profile_count = 0 + 1) ∧
    ((alistGet stA2.profiles "alice").map MessagingProfile.key_version = some 2 ∧
      stA2.profile_count = stA1.profile_count) := by
  constructor
  · exact (C2_register_key_versioning envAlice (WhisperContract.new envAlice)
      stA1 pkW none [Event.key_registered "alice" pkW 1 none] (by decide)).1
      (by decide)
  · exact (C2_register_key_versioning envAlice stA1 stA2 pkW (some "Alice")
      [Event.key_registered "alice" pkW 2 (some "Alice")] (by decide)).2
      profA1 (by decide)

/-- C3: `send_message` to a recipient with no registered profile always fails
with the `UnknownRecipient` panic ("Recipient has no registered messaging
key") — for any caller — leaving the state, `message_count` included,
unchanged, and emitting no notification. -/
theorem C3_unknown_recipient (env : Env) (st : WhisperContract)
    (t body nonce : String) (rkv : Nat) (rt : Option String)
    (h : alistGet st.profiles t = none) :
    send_message env st t body nonce rkv rt =
      .error "Recipient has no registered messaging key" ∧
    run st [Call.send env t body nonce rkv rt] = (st, []) := by
  have herr : send_message env st t body nonce rkv rt =
      .error "Recipient has no registered messaging key" := by
    unfold send_message
    simp [h]
  exact ⟨herr, by simp [run, step, herr]⟩

/-- Witness for C3: sending to the unregistered account `bob` on a fresh
contract fails and changes nothing. -/
theorem C3_witness :
    send_message envAlice (WhisperContract.new envAlice) "bob" "b" "n" 1 none =
      .error "Recipient has no registered messaging key" ∧
    run (WhisperContract.new envAlice) [Call.send envAlice "bob" "b" "n" 1 none] =
      (WhisperContract.new envAlice, []) :=
  C3_unknown_recipient envAlice (WhisperContract.new envAlice) "bob" "b" "n" 1
    none (by decide)

/-- A context attaching no value. -/
def envZero : Env :=
  { predecessor_account_id := "dave", attached_deposit := 0, block_timestamp := 3 }

/-- Carol's context attaching 5 yoctoNEAR. -/
def envPay : Env :=
  { predecessor_account_id := "carol", attached_deposit := 5, block_timestamp := 9 }

/-- C4: `send_message_with_payment` with zero attached value fails with the
`NoPayment` panic ("Must attach NEAR tokens for payment message") and changes
no state; with positive attached value and a registered recipient (and the
message counter below the u64 maximum) it succeeds, transfers exactly the
attached amount to the recipient, and emits exactly one `message`
notification whose `payment` field carries that amount. -/
theorem C4_payment_message (env : Env) (st : WhisperContract)
    (t body nonce : String) (rkv : Nat) (rt : Option String) :
    (env.attached_deposit = 0 →
      send_message_with_payment env st t body nonce rkv rt =
        .error "Must attach NEAR tokens for payment message" ∧
      run st [Call.sendWithPayment env t body nonce rkv rt] = (st, [])) ∧
    (0 < env.attached_deposit → (alistGet st.profiles t).isSome = true →
      st.message_count + 1 < U64_MOD →
      send_message_with_payment env st t body nonce rkv rt =
        .ok ({ st with message_count := st.message_count + 1 },
             [Event.message (st.message_count + 1) env.predecessor_account_id t
                body nonce rkv rt env.block_timestamp
                (some { token := "NEAR", amount := env.attached_deposit })],
             { receiver := t, amount := env.attached_deposit })) := by
  constructor
  · intro h0
    have herr : send_message_with_payment env st t body nonce rkv rt =
        .error "Must attach NEAR tokens for payment message" := by
      unfold send_message_with_payment
      simp [h0]
    exact ⟨herr, by simp [run, step, herr, Except.map]⟩
  · intro h0 h1 h2
    unfold send_message_with_payment
    rw [if_pos h0, if_pos h1, if_pos h2]

/-- Witness for C4: a zero-value payment message fails and changes nothing;
Carol (herself unregistered) pays 5 yocto to the registered Alice and the
emitted notification and transfer carry exactly 5. -/
theorem C4_witness :
    (send_message_with_payment envZero stA1 "alice" "b" "n" 1 none =
       .error "Must attach NEAR tokens for payment message" ∧
     run stA1 [Call.sendWithPayment envZero "alice" "b" "n" 1 none] = (stA1, [])) ∧
    send_message_with_payment envPay stA1 "alice" "b" "n" 1 none =
      .ok ({ stA1 with message_count := 1 },
           [Event.message 1 "carol" "alice" "b" "n" 1 none 9
              (some { token := "NEAR", amount := 5 })],
           { receiver := "alice", amount := 5 }) := by
  constructor
  · exact (C4_payment_message envZero stA1 "alice" "b" "n" 1 none).1 rfl
  · exact (C4_payment_message envPay stA1 "alice" "b" "n" 1 none).2
      (by decide) (by decide) (by decide)

/-- The pre-existing group `g`, created by Alice. -/
def groupG : GroupChat :=
  { group_id := "g", creator := "alice", created_at := 7, name := none }

/-- The group `h`, created by Alice. -/
def groupH : GroupChat :=
  { group_id := "h", creator := "alice", created_at := 7, name := none }

/-- A state whose directory already holds group `g`. -/
def stG : WhisperContract :=
  { profiles := [], groups := [("g", groupG)], profile_count := 0,
    message_count := 0, owner := "alice" }

/-- `stG` after also creating group `h`. -/
def stG2 : WhisperContract :=
  { profiles := [], groups := [("g", groupG), ("h", groupH)], profile_count := 0,
    message_count := 0, owner := "alice" }

/-- Refutation of C5 as stated: with group `g` already present but no deposit
attached, `create_group` fails with the `InsufficientDeposit` panic ("Attach
at least 0.01 NEAR for storage"), not the `DuplicateGroup` one ("Group ID
already exists"): the deposit is checked first. -/
theorem C5_counterexample :
    alistGet stG.groups "g" = some groupG ∧
    create_group envZero stG "g" none "mk" =
      .error "Attach at least 0.01 NEAR for storage" ∧
    create_group envZero stG "g" none "mk" ≠ .error "Group ID already exists" := by
  decide

/-- C5 (amended): for a `group_id` already present, `create_group` always
fails and leaves the existing GroupChat and all other state unchanged — with
the `DuplicateGroup` panic when at least the 0.01 NEAR storage deposit is
attached, and with the `InsufficientDeposit` panic otherwise — and no
successful call of any kind removes or replaces an existing directory entry,
so group identifiers stay globally unique for the lifetime of the directory
and no operation removes or renames a group. -/
theorem C5_duplicate_group (env : Env) (st : WhisperContract) (gid : String)
    (name : Option String) (keys : String) (g : GroupChat)
    (hg : alistGet st.groups gid = some g) :
    (from_millinear 10 ≤ env.attached_deposit →
      create_group env st gid name keys = .error "Group ID already exists") ∧
    (env.attached_deposit < from_millinear 10 →
      create_group env st gid name keys =
        .error "Attach at least 0.01 NEAR for storage") ∧
    run st [Call.createGroup env gid name keys] = (st, []) ∧
    ∀ (c : Call) (st' : WhisperContract) (evs : List Event),
      step st c = .ok (st', evs) → ∀ (gid0 : String) (g0 : GroupChat),
        alistGet st.groups gid0 = some g0 → alistGet st'.groups gid0 = some g0 := by
  have hdup : from_millinear 10 ≤ env.attached_deposit →
      create_group env st gid name keys = .error "Group ID already exists" := by
    intro hdep
    unfold create_group
    rw [if_pos hdep]
    simp [hg]
  have hins : env.attached_deposit < from_millinear 10 →
      create_group env st gid name keys =
        .error "Attach at least 0.01 NEAR for storage" := by
    intro hdep
    unfold create_group
    rw [if_neg (by omega)]
  refine ⟨hdup, hins, ?_, ?_⟩
  · rcases Nat.lt_or_ge env.attached_deposit (from_millinear 10) with hd | hd
    · simp [run, step, hins hd]
    · simp [run, step, hdup hd]
  · intro c st' evs h gid0 g0 hg0
    cases c with
    | register env1 pk dn =>
      simp only [step] at h
      obtain ⟨kv, hst, hevs, hkv⟩ := register_key_ok_inv env1 st pk dn st' evs h
      subst hst
      exact hg0
    | send env1 t body nonce rkv rt =>
      simp only [step] at h
      obtain ⟨h1, h2, hst, hevs⟩ := send_message_ok_inv env1 st t body nonce rkv rt st' evs h
      subst hst
      exact hg0
    | sendWithPayment env1 t body nonce rkv rt =>
      simp only [step] at h
      rcases hp : send_message_with_payment env1 st t body nonce rkv rt with e | out
      · rw [hp] at h; exact absurd h (by simp [Except.map])
      · rw [hp] at h
        obtain ⟨st1, evs1, pr1⟩ := out
        simp only [Except.map, Except.ok.injEq, Prod.mk.injEq] at h
        obtain ⟨rfl, rfl⟩ := h
        obtain ⟨h0, h1, h2, hst, hevs, hpr⟩ :=
          send_message_with_payment_ok_inv env1 st t body nonce rkv rt st1 evs1 pr1 hp
        subst hst
        exact hg0
    | createGroup env1 gid1 name1 keys1 =>
      simp only [step] at h
      obtain ⟨h0, h1, hst, hevs⟩ := create_group_ok_inv env1 st gid1 name1 keys1 st' evs h
      subst hst
      have hne : ¬ gid1 = gid0 := by
        intro he
        rw [he, hg0] at h1
        exact Option.noConfusion h1
      simpa [alistGet_insert_ne _ _ _ _ hne] using hg0
    | sendGroup env1 gid1 body nonce gkv =>
      simp only [step] at h
      obtain ⟨h1, h2, hst, hevs⟩ := send_group_message_ok_inv env1 st gid1 body nonce gkv st' evs h
      subst hst
      exact hg0

/-- Witness for C5 (amended): on `stG`, re-creating `g` with the deposit
attached hits the duplicate panic; with no deposit it hits the deposit panic;
either way the state survives; and a successful creation of the fresh group
`h` leaves the `g` entry intact. -/
theorem C5_witness :
    create_group envAlice stG "g" none "mk" = .error "Group ID already exists" ∧
    create_group envZero stG "g" none "mk" =
      .error "Attach at least 0.01 NEAR for storage" ∧
    run stG [Call.createGroup envAlice "g" none "mk"] = (stG, []) ∧
    alistGet stG2.groups "g" = some groupG := by
  have h := C5_duplicate_group envAlice stG "g" none "mk" groupG (by decide)
  have h0 := C5_duplicate_group envZero stG "g" none "mk" groupG (by decide)
  refine ⟨h.1 (by decide), h0.2.1 (by decide), h.2.2.1, ?_⟩
  exact h.2.2.2 (Call.createGroup envAlice "h" none "mk") stG2
    [Event.group_created "h" "alice" none "mk" 7] (by decide) "g" groupG (by decide)

/-- Refutation of C6 as stated: with no profile, no deposit, and a malformed
pubkey (`"!"` is not valid base64), `register_key` fails with the
`MalformedKey` panic rather than the `InsufficientDeposit` one; and even with
an existing profile `register_key` can fail (same malformed key), so it does
not unconditionally succeed. -/
theorem C6_counterexample :
    alistGet (WhisperContract.new envZero).profiles "dave" = none ∧
    envZero.attached_deposit < from_millinear 10 ∧
    register_key envZero (WhisperContract.new envZero) "!" none =
      .error "Invalid base64 pubkey" ∧
    register_key envZero (WhisperContract.new envZero) "!" none ≠
      .error "Attach at least 0.01 NEAR for storage deposit" ∧
    register_key envAlice stA1 "!" none = .error "Invalid base64 pubkey" := by
  decide

/-- C6 (amended): for a well-formed pubkey (one decoding to exactly 32
bytes): a caller with no Profile and attached value below the 0.01 NEAR
storage-rent minimum fails with the `InsufficientDeposit` panic and changes
no state; a caller with an existing Profile (whose key_version is below the
u32 maximum, as every reachable one is) succeeds with no deposit requirement
at all. -/
theorem C6_deposit_gating (env : Env) (st : WhisperContract) (pk : String)
    (dn : Option String) (bs : List Nat) (hdec : base64Decode pk = some bs)
    (hlen : bs.length = 32) :
    (alistGet st.profiles env.predecessor_account_id = none →
      env.attached_deposit < from_millinear 10 →
      register_key env st pk dn =
        .error "Attach at least 0.01 NEAR for storage deposit" ∧
      run st [Call.register env pk dn] = (st, [])) ∧
    ∀ p, alistGet st.profiles env.predecessor_account_id = some p →
      p.key_version + 1 < U32_MOD →
      register_key env st pk dn =
        .ok ({ st with
                profiles := alistInsert st.profiles env.predecessor_account_id
                  ({ x25519_pubkey := pk, key_version := p.key_version + 1,
                     registered_at := env.block_timestamp, display_name := dn }) },
             [Event.key_registered env.predecessor_account_id pk
                (p.key_version + 1) dn]) := by
  constructor
  · intro hnone hdep
    have herr : register_key env st pk dn =
        .error "Attach at least 0.01 NEAR for storage deposit" := by
      unfold register_key
      simp only [hdec]
      rw [if_pos hlen]
      simp only [hnone]
      rw [if_neg (by omega)]
    exact ⟨herr, by simp [run, step, herr]⟩
  · intro p hp hkv
    unfold register_key
    simp only [hdec]
    rw [if_pos hlen]
    simp only [hp]
    rw [if_pos hkv]

/-- Witness for C6 (amended): Dave, unregistered and attaching nothing, fails
the deposit check with a valid key; Alice, already registered, rotates her
key successfully while attaching nothing at all. -/
theorem C6_witness :
    (register_key envZero (WhisperContract.new envZero) pkW none =
       .error "Attach at least 0.01 NEAR for storage deposit" ∧
     run (WhisperContract.new envZero) [Call.register envZero pkW none] =
       (WhisperContract.new envZero, [])) ∧
    register_key { predecessor_account_id := "alice", attached_deposit := 0,
                   block_timestamp := 7 } stA1 pkW none =
      .ok ({ stA1 with
              profiles := alistInsert stA1.profiles "alice"
                ({ x25519_pubkey := pkW, key_version := 2,
                   registered_at := 7, display_name := none }) },
           [Event.key_registered "alice" pkW 2 none]) := by
  constructor
  · exact (C6_deposit_gating envZero (WhisperContract.new envZero) pkW none
      (List.replicate 32 0) (by decide) (by decide)).1 (by decide) (by decide)
  · exact (C6_deposit_gating
      { predecessor_account_id := "alice", attached_deposit := 0,
        block_timestamp := 7 } stA1 pkW none (List.replicate 32 0)
      (by decide) (by decide)).2 profA1 (by decide) (by decide)

/-- C7: `register_key` with a pubkey that does not decode to exactly 32 bytes
always fails for every caller — with one of the two `MalformedKey` panics
("Invalid base64 pubkey" for a bad encoding, "X25519 pubkey must be 32 bytes"
for a wrong length) — storing or replacing no profile, leaving
`profile_count` unchanged, and emitting no notification. -/
theorem C7_malformed_key (env : Env) (st : WhisperContract) (pk : String)
    (dn : Option String)
    (h : (base64Decode pk).map List.length ≠ some 32) :
    (register_key env st pk dn = .error "Invalid base64 pubkey" ∨
     register_key env st pk dn = .error "X25519 pubkey must be 32 bytes") ∧
    run st [Call.register env pk dn] = (st, []) := by
  have herr : register_key env st pk dn = .error "Invalid base64 pubkey" ∨
      register_key env st pk dn = .error "X25519 pubkey must be 32 bytes" := by
    unfold register_key
    rcases hdec : base64Decode pk with _ | decoded
    · left; simp [hdec]
    · right
      rw [hdec] at h
      simp only [hdec]
      rw [if_neg (by simpa using h)]
  refine ⟨herr, ?_⟩
  rcases herr with he | he <;> simp [run, step, he]

/-- Witness for C7: `"AAAA"` is valid base64 but decodes to 3 bytes, so
registering it fails and a fresh contract is left untouched. -/
theorem C7_witness :
    (register_key envAlice (WhisperContract.new envAlice) "AAAA" none =
       .error "Invalid base64 pubkey" ∨
     register_key envAlice (WhisperContract.new envAlice) "AAAA" none =
       .error "X25519 pubkey must be 32 bytes") ∧
    run (WhisperContract.new envAlice) [Call.register envAlice "AAAA" none] =
      (WhisperContract.new envAlice, []) :=
  C7_malformed_key envAlice (WhisperContract.new envAlice) "AAAA" none (by decide)

/-- C8: a successful `register_key` replaces the caller's profile wholesale:
the stored profile carries exactly this call's pubkey, assigned version,
current timestamp and display name (so passing no display name clears a
previously set one), and exactly one `key_registered` event with those same
fields plus the caller's identifier is emitted. -/
theorem C8_wholesale_replacement (env : Env) (st st' : WhisperContract)
    (pk : String) (dn : Option String) (evs : List Event)
    (h : register_key env st pk dn = .ok (st', evs)) :
    ∃ kv,
      alistGet st'.profiles env.predecessor_account_id =
        some { x25519_pubkey := pk, key_version := kv,
               registered_at := env.block_timestamp, display_name := dn } ∧
      evs = [Event.key_registered env.predecessor_account_id pk kv dn] := by
  obtain ⟨kv, hst, hevs, hkv⟩ := register_key_ok_inv env st pk dn st' evs h
  subst hst hevs
  exact ⟨kv, by simp [alistGet_insert_self], rfl⟩

/-- Alice's profile after a third registration that passes no display name. -/
def profA3 : MessagingProfile :=
  { x25519_pubkey := pkW, key_version := 3, registered_at := 7,
    display_name := none }

/-- State after Alice's third registration. -/
def stA3 : WhisperContract :=
  { profiles := [("alice", profA3)], groups := [], profile_count := 1,
    message_count := 0, owner := "alice" }

/-- Witness for C8: Alice re-registers `pkW` passing no display name, which
replaces her profile wholesale and in particular clears the previously set
name "Alice". -/
theorem C8_witness :
    ∃ kv,
      alistGet stA3.profiles "alice" =
        some { x25519_pubkey := pkW, key_version := kv,
               registered_at := 7, display_name := none } ∧
      [Event.key_registered "alice" pkW 3 none] =
        [Event.key_registered "alice" pkW kv none] :=
  C8_wholesale_replacement envAlice stA2 stA3 pkW none
    [Event.key_registered "alice" pkW 3 none] (by decide)

/-- C9 (modelled from the spec, see `init_call`): the first constructor call
builds the fresh state; a second constructor call fails with the
`AlreadyInitialized` error and leaves the deployed state — profiles, groups,
counters and owner — untouched. -/
theorem C9_single_initialization (st : WhisperContract) (env env0 : Env) :
    init_call none env0 = .ok (WhisperContract.new env0) ∧
    init_call (some st) env = .error "The contract has already been initialized" ∧
    deploy_step (some st) env = some st :=
  ⟨rfl, rfl, rfl⟩

/-- Mallory's context: has no profile anywhere, attaches 5 yocto. -/
def envMal : Env :=
  { predecessor_account_id := "mallory", attached_deposit := 5,
    block_timestamp := 11 }

/-- A state with Alice registered and group `g` existing. -/
def stAG : WhisperContract :=
  { profiles := [("alice", profA1)], groups := [("g", groupG)],
    profile_count := 1, message_count := 0, owner := "alice" }

/-- C10: no message-sending operation validates the caller.  For every caller
context (registered or not): `send_message` succeeds exactly when the
recipient has a profile; `send_message_with_payment` exactly when the
recipient has a profile and the attached value is positive;
`send_group_message` exactly when the group exists (all under the u64 message
counter bound).  The success condition never mentions the caller. -/
theorem C10_caller_never_validated (env : Env) (st : WhisperContract)
    (t gid body nonce : String) (kv : Nat) (rt : Option String)
    (hcnt : st.message_count + 1 < U64_MOD) :
    ((∃ out, send_message env st t body nonce kv rt = .ok out) ↔
      (alistGet st.profiles t).isSome = true) ∧
    ((∃ out, send_message_with_payment env st t body nonce kv rt = .ok out) ↔
      ((alistGet st.profiles t).isSome = true ∧ 0 < env.attached_deposit)) ∧
    ((∃ out, send_group_message env st gid body nonce kv = .ok out) ↔
      (alistGet st.groups gid).isSome = true) := by
  refine ⟨⟨?_, ?_⟩, ⟨?_, ?_⟩, ⟨?_, ?_⟩⟩
  · rintro ⟨⟨st', evs⟩, h⟩
    exact (send_message_ok_inv env st t body nonce kv rt st' evs h).1
  · intro h1
    refine ⟨({ st with message_count := st.message_count + 1 },
             [Event.message (st.message_count + 1) env.predecessor_account_id t
                body nonce kv rt env.block_timestamp none]), ?_⟩
    unfold send_message
    rw [if_pos h1, if_pos hcnt]
  · rintro ⟨⟨st', evs, pr⟩, h⟩
    have hh := send_message_with_payment_ok_inv env st t body nonce kv rt st' evs pr h
    exact ⟨hh.2.1, hh.1⟩
  · rintro ⟨h1, h0⟩
    refine ⟨({ st with message_count := st.message_count + 1 },
             [Event.message (st.message_count + 1) env.predecessor_account_id t
                body nonce kv rt env.block_timestamp
                (some { token := "NEAR", amount := env.attached_deposit })],
             { receiver := t, amount := env.attached_deposit }), ?_⟩
    unfold send_message_with_payment
    rw [if_pos h0, if_pos h1, if_pos hcnt]
  · rintro ⟨⟨st', evs⟩, h⟩
    exact (send_group_message_ok_inv env st gid body nonce kv st' evs h).1
  · intro h1
    refine ⟨({ st with message_count := st.message_count + 1 },
             [Event.group_message (st.message_count + 1) gid
                env.predecessor_account_id body nonce kv env.block_timestamp]), ?_⟩
    unfold send_group_message
    rw [if_pos h1, if_pos hcnt]

/-- Witness for C10: Mallory, who has no profile at all, can send a direct
message and a paid message to Alice and a group message to `g`. -/
theorem C10_witness :
    (∃ out, send_message envMal stAG "alice" "b" "n" 1 none = .ok out) ∧
    (∃ out, send_message_with_payment envMal stAG "alice" "b" "n" 1 none = .ok out) ∧
    (∃ out, send_group_message envMal stAG "g" "b" "n" 1 = .ok out) := by
  have h := C10_caller_never_validated envMal stAG "alice" "g" "b" "n" 1 none
    (by decide)
  exact ⟨h.1.mpr (by decide), h.2.1.mpr (by decide), h.2.2.mpr (by decide)⟩
